import Mathlib

/-!
Shallow embedding of `nipype/interfaces/dipy/tensors.py`: the three dipy
adapter classes `DKI`, `DTI` and `TensorMode`.  Each `_run_interface`
body is embedded as a function from an environment (the external
nibabel/dipy/numpy operations together with the dipy base-class helpers)
and the interface inputs to the ordered trace of observable effects
(file loads, model-fit invocations, file saves, log messages) paired
with the Python exception the body raises, if any.  `_list_outputs`
bodies become association lists from output-dictionary key to generated
filename.
-/

namespace DipyTensors

/-- A Python exception raised by an embedded method body. -/
inductive PyErr where
  | attributeError (name : String) : PyErr
  | typeError (msg : String) : PyErr
  deriving DecidableEq, Repr

/-- The `TypeError` Python raises for `getattr` applied to one argument,
as in the line `data = getattr(kurtosis_fit.metric).astype('float32')`
of `DKI._run_interface`. -/
def getattrOneArgError : PyErr :=
  PyErr.typeError "getattr expected at least 2 arguments, got 1"

/-- A nibabel image value: voxel data paired with its affine, as produced
by `nb.load` / `nb.Nifti1Image(data, affine)` / `nifti1_symmat(lt, affine)`. -/
structure NImage (Vol Affine : Type) where
  data : Vol
  affine : Affine
  deriving DecidableEq, Repr

/-- A fitted model object returned by the external dipy fit
(`TensorModel(gtab).fit(...)` or `DiffusionKurtosisModel(gtab).fit(...)`).
`attrs` is Python attribute lookup on the fit object (`none` means the
attribute is absent, so access raises `AttributeError`);
`lowerTriangular` is the result of the `lower_triangular()` method. -/
structure PyFit (Vol : Type) where
  attrs : String → Option Vol
  lowerTriangular : Vol

/-- Python attribute access `obj.name` on a fit object: the value, or an
`AttributeError` when absent. -/
def pyGetAttr {Vol : Type} (fit : PyFit Vol) (name : String) : Except PyErr Vol :=
  match fit.attrs name with
  | none => Except.error (PyErr.attributeError name)
  | some v => Except.ok v

/-- Modelled from the spec: the operations the adapter bodies call that are
not part of the source under review — the external libraries (nibabel
`load`, dipy model fits, numpy `astype` and elementwise `>` against a
scalar, last-axis indexing `data[..., 0]`) and the dipy base-class
helpers `_get_gradient_table` (spec: "the set of b-values and b-vectors
... constructed from two companion files", folded into the field `gtab`)
and `_gen_filename` (spec: "derives per-metric output filenames from a
base template and metric name; this is a deterministic naming
convention", modelled as the function field `genFilename`). -/
structure Env (Vol Affine GTab : Type) where
  load : String → NImage Vol Affine
  gtab : GTab
  dtiFit : GTab → Vol → Option Vol → PyFit Vol
  dkiFit : GTab → Vol → Option Vol → PyFit Vol
  astype : Vol → String → Vol
  index0Last : Vol → Vol
  gtScalar : Vol → Int → Vol
  genFilename : String → String

/-- The interface inputs an adapter run reads: the diffusion image path and
the optional mask path (`none` embeds a traits-undefined `mask_file`, so
`isdefined(self.inputs.mask_file)` is false exactly on `none`). -/
structure Inputs where
  in_file : String
  mask_file : Option String
  deriving DecidableEq, Repr

/-- An observable effect of a `_run_interface` body, in program order:
a `nb.load` call, an external model-fit invocation with its arguments,
a file save (`nb.save` / `.to_filename`), or an `IFLOGGER.info` message. -/
inductive Event (Vol Affine GTab : Type) where
  | loadCall (path : String) : Event Vol Affine GTab
  | fitCall (gtab : GTab) (data : Vol) (mask : Option Vol) : Event Vol Affine GTab
  | save (filename : String) (img : NImage Vol Affine) : Event Vol Affine GTab
  | log (msg : String) : Event Vol Affine GTab
  deriving DecidableEq, Repr

/-- The result of running an embedded method body: the effects emitted
before control left the body, and the exception propagated (`none` on
normal completion). -/
def RunResult (Vol Affine GTab : Type) : Type :=
  List (Event Vol Affine GTab) × Option PyErr

/-- The saved files of a trace: `(filename, image)` per save event, in order. -/
def savesOf {Vol Affine GTab : Type} (evs : List (Event Vol Affine GTab)) :
    List (String × NImage Vol Affine) :=
  evs.filterMap fun e =>
    match e with
    | Event.save f img => some (f, img)
    | _ => none

/-- The log messages of a trace, in order. -/
def logsOf {Vol Affine GTab : Type} (evs : List (Event Vol Affine GTab)) :
    List String :=
  evs.filterMap fun e =>
    match e with
    | Event.log m => some m
    | _ => none

/-- The model-fit invocations of a trace: `(gtab, data, mask)` per call. -/
def fitCallsOf {Vol Affine GTab : Type} (evs : List (Event Vol Affine GTab)) :
    List (GTab × Vol × Option Vol) :=
  evs.filterMap fun e =>
    match e with
    | Event.fitCall g d m => some (g, d, m)
    | _ => none

/-- `sub` occurs as a contiguous sublist of `hay`. -/
def occursIn (sub : List Char) : List Char → Bool
  | [] => sub.isEmpty
  | c :: rest => List.isPrefixOf sub (c :: rest) || occursIn sub rest

/-- `sub` occurs as a contiguous substring of `hay`. -/
def strContains (hay sub : String) : Bool :=
  occursIn sub.data hay.data

/-- The metric list of `DKI._run_interface` / `DKI._list_outputs`. -/
def dkiMetrics : List String := ["fa", "md", "rd", "ad", "mk", "ak", "rk"]

/-- The metric list of `DTI._run_interface` / `DTI._list_outputs`. -/
def dtiMetrics : List String := ["fa", "md", "rd", "ad"]

/-- The fields declared by `DKIOutputSpec`. -/
def DKIOutputSpecFields : List String :=
  ["out_file", "fa_file", "md_file", "rd_file", "ad_file",
   "mk_file", "ak_file", "rk_file"]

/-- The fields declared by `DTIOutputSpec`. -/
def DTIOutputSpecFields : List String :=
  ["out_file", "fa_file", "md_file", "rd_file", "ad_file"]

/-- The fields declared by `TensorModeOutputSpec`. -/
def TensorModeOutputSpecFields : List String := ["out_file"]

/-- The class-level `input_spec` / `output_spec` assignments of an adapter
class body (`none` when the class body contains no such assignment and
the binding is inherited from `DipyDiffusionInterface`). -/
structure AdapterClass where
  name : String
  input_spec : Option String
  output_spec : Option String
  deriving DecidableEq, Repr

/-- The `DKI` class body: it contains no `input_spec =` or `output_spec =`
assignment (only the docstring and the two methods). -/
def DKIClass : AdapterClass :=
  { name := "DKI", input_spec := none, output_spec := none }

/-- The `DTI` class body: `input_spec = DTIInputSpec`,
`output_spec = DTIOutputSpec`. -/
def DTIClass : AdapterClass :=
  { name := "DTI", input_spec := some "DTIInputSpec",
    output_spec := some "DTIOutputSpec" }

/-- The `TensorMode` class body: `input_spec = TensorModeInputSpec`,
`output_spec = TensorModeOutputSpec`. -/
def TensorModeClass : AdapterClass :=
  { name := "TensorMode", input_spec := some "TensorModeInputSpec",
    output_spec := some "TensorModeOutputSpec" }

/-- The `mask = None; if isdefined(self.inputs.mask_file): mask = nb.load(
self.inputs.mask_file).get_data()` block shared by `DKI._run_interface`
and `DTI._run_interface`: the load events it emits and the mask value. -/
def loadMask {Vol Affine GTab : Type} (env : Env Vol Affine GTab)
    (inp : Inputs) : List (Event Vol Affine GTab) × Option Vol :=
  match inp.mask_file with
  | none => ([], none)
  | some mf => ([Event.loadCall mf], some (env.load mf).data)

/-- The `for metric in ["fa", "md", "rd", "ad"]:` loop body of
`DTI._run_interface`: `data = getattr(ten_fit,metric).astype("float32")`,
`out_name = self._gen_filename(metric)`, write, log. -/
def dtiMetricLoop {Vol Affine GTab : Type} (env : Env Vol Affine GTab)
    (fit : PyFit Vol) (affine : Affine) :
    List String → List (Event Vol Affine GTab) × Option PyErr
  | [] => ([], none)
  | m :: rest =>
    match fit.attrs m with
    | none => ([], some (PyErr.attributeError m))
    | some v =>
      let d32 := env.astype v "float32"
      let out_name := env.genFilename m
      let r := dtiMetricLoop env fit affine rest
      (Event.save out_name ⟨d32, affine⟩ ::
        Event.log ("DTI " ++ m ++ " image saved as " ++ out_name) :: r.1, r.2)

/-- The `for metric in ['fa', 'md', 'rd', 'ad', 'mk', 'ak', 'rk']:` loop of
`DKI._run_interface`.  Its first statement is
`data = getattr(kurtosis_fit.metric).astype('float32')`: Python first
evaluates the single argument `kurtosis_fit.metric` — attribute lookup of
the literal name `"metric"`, raising `AttributeError` when absent — and
otherwise raises `TypeError` because `getattr` needs at least two
arguments.  Either way the loop raises on its first iteration before any
filename is generated or any file written. -/
def dkiMetricLoop {Vol Affine GTab : Type} (fit : PyFit Vol) :
    List String → List (Event Vol Affine GTab) × Option PyErr
  | [] => ([], none)
  | _ :: _ =>
    match fit.attrs "metric" with
    | none => ([], some (PyErr.attributeError "metric"))
    | some _ => ([], some getattrOneArgError)

/-- `DKI._run_interface`: load image, capture affine, optionally load mask,
fit the kurtosis model, save the lower-triangular parameters image as the
`'dki'` filename, log the (malformed) message — the `.format(i=out_file)`
call sits inside the string literal, so the literal itself is logged —
then enter the metric loop, which raises. -/
def dkiRunInterface {Vol Affine GTab : Type} (env : Env Vol Affine GTab)
    (inp : Inputs) : RunResult Vol Affine GTab :=
  let img := env.load inp.in_file
  let data := img.data
  let affine := img.affine
  let maskEvs := (loadMask env inp).1
  let mask := (loadMask env inp).2
  let fit := env.dkiFit env.gtab data mask
  let lt := fit.lowerTriangular
  let out_file := env.genFilename "dki"
  let pre : List (Event Vol Affine GTab) :=
    Event.loadCall inp.in_file :: maskEvs ++
      [Event.fitCall env.gtab data mask,
       Event.save out_file ⟨lt, affine⟩,
       Event.log "DKI parameters image saved as {i}.format(i=out_file)"]
  let r := dkiMetricLoop fit dkiMetrics
  (pre ++ r.1, r.2)

/-- `DKI._list_outputs`: `outputs['out_file'] = self._gen_filename('dki')`,
then for each metric `outputs['{}'.format(metric)] = self._gen_filename(
metric)` — the dictionary key is the bare metric name, without the
`_file` suffix of the declared output fields. -/
def dkiListOutputs {Vol Affine GTab : Type} (env : Env Vol Affine GTab) :
    List (String × String) :=
  ("out_file", env.genFilename "dki") ::
    dkiMetrics.map fun m => (m, env.genFilename m)

/-- `DTI._run_interface`: load image, capture affine, optionally load mask,
fit the tensor model, save the lower-triangular parameters image as the
`'dti'` filename, log it, then write each metric volume. -/
def dtiRunInterface {Vol Affine GTab : Type} (env : Env Vol Affine GTab)
    (inp : Inputs) : RunResult Vol Affine GTab :=
  let img := env.load inp.in_file
  let data := img.data
  let affine := img.affine
  let maskEvs := (loadMask env inp).1
  let mask := (loadMask env inp).2
  let fit := env.dtiFit env.gtab data mask
  let lt := fit.lowerTriangular
  let out_file := env.genFilename "dti"
  let pre : List (Event Vol Affine GTab) :=
    Event.loadCall inp.in_file :: maskEvs ++
      [Event.fitCall env.gtab data mask,
       Event.save out_file ⟨lt, affine⟩,
       Event.log ("DTI parameters image saved as " ++ out_file)]
  let r := dtiMetricLoop env fit affine dtiMetrics
  (pre ++ r.1, r.2)

/-- `DTI._list_outputs`: `outputs['out_file'] = self._gen_filename('dti')`,
then `outputs["{}_file".format(metric)] = self._gen_filename(metric)`. -/
def dtiListOutputs {Vol Affine GTab : Type} (env : Env Vol Affine GTab) :
    List (String × String) :=
  ("out_file", env.genFilename "dti") ::
    dtiMetrics.map fun m => (m ++ "_file", env.genFilename m)

/-- `TensorMode._run_interface`: load image, capture affine, compute the
mask `data[..., 0] > 50`, fit the tensor model with that mask, read
`tenfit.mode`, and save it with the original affine as the `'mode'`
filename.  The declared `mask_file` input is never read. -/
def tensorModeRunInterface {Vol Affine GTab : Type} (env : Env Vol Affine GTab)
    (inp : Inputs) : RunResult Vol Affine GTab :=
  let img := env.load inp.in_file
  let data := img.data
  let affine := img.affine
  let mask := env.gtScalar (env.index0Last data) 50
  let fit := env.dtiFit env.gtab data (some mask)
  let pre : List (Event Vol Affine GTab) :=
    [Event.loadCall inp.in_file,
     Event.fitCall env.gtab data (some mask)]
  match fit.attrs "mode" with
  | none => (pre, some (PyErr.attributeError "mode"))
  | some modeData =>
    let out_file := env.genFilename "mode"
    (pre ++ [Event.save out_file ⟨modeData, affine⟩,
             Event.log ("Tensor mode image saved as " ++ out_file)], none)

/-- `TensorMode._list_outputs`: `outputs['out_file'] = self._gen_filename(
'mode')`. -/
def tensorModeListOutputs {Vol Affine GTab : Type}
    (env : Env Vol Affine GTab) : List (String × String) :=
  [("out_file", env.genFilename "mode")]

/-- A concrete fit object whose every attribute is defined: the external
fit succeeded and exposes all of its metric volumes. -/
def fitC : PyFit Int := { attrs := fun _ => some 5, lowerTriangular := 9 }

/-- A concrete environment over `Vol = Affine = GTab = Int` for evaluating
the embedded bodies at explicit inputs. -/
def envC : Env Int Int Int :=
  { load := fun s => if s = "mask.nii" then ⟨100, 42⟩ else ⟨3, 42⟩
    gtab := 17
    dtiFit := fun _ _ _ => fitC
    dkiFit := fun _ _ _ => fitC
    astype := fun v _ => v + 1000
    index0Last := fun v => v * 2
    gtScalar := fun v n => if v > n then 1 else 0
    genFilename := fun m => "f_" ++ m ++ ".nii.gz" }

/-- Concrete inputs with no mask file set. -/
def inpC : Inputs := { in_file := "dwi.nii", mask_file := none }

/-- Concrete inputs with a mask file set. -/
def inpM : Inputs := { in_file := "dwi.nii", mask_file := some "mask.nii" }

section TraceLemmas

variable {Vol Affine GTab : Type}

@[simp]
theorem savesOf_nil : savesOf ([] : List (Event Vol Affine GTab)) = [] := rfl

@[simp]
theorem savesOf_cons_load (p : String) (evs : List (Event Vol Affine GTab)) :
    savesOf (Event.loadCall p :: evs) = savesOf evs := rfl

@[simp]
theorem savesOf_cons_fit (g : GTab) (d : Vol) (m : Option Vol)
    (evs : List (Event Vol Affine GTab)) :
    savesOf (Event.fitCall g d m :: evs) = savesOf evs := rfl

@[simp]
theorem savesOf_cons_log (s : String) (evs : List (Event Vol Affine GTab)) :
    savesOf (Event.log s :: evs) = savesOf evs := rfl

@[simp]
theorem savesOf_cons_save (f : String) (i : NImage Vol Affine)
    (evs : List (Event Vol Affine GTab)) :
    savesOf (Event.save f i :: evs) = (f, i) :: savesOf evs := rfl

@[simp]
theorem savesOf_append (a b : List (Event Vol Affine GTab)) :
    savesOf (a ++ b) = savesOf a ++ savesOf b :=
  List.filterMap_append a b _

@[simp]
theorem logsOf_nil : logsOf ([] : List (Event Vol Affine GTab)) = [] := rfl

@[simp]
theorem logsOf_cons_load (p : String) (evs : List (Event Vol Affine GTab)) :
    logsOf (Event.loadCall p :: evs) = logsOf evs := rfl

@[simp]
theorem logsOf_cons_fit (g : GTab) (d : Vol) (m : Option Vol)
    (evs : List (Event Vol Affine GTab)) :
    logsOf (Event.fitCall g d m :: evs) = logsOf evs := rfl

@[simp]
theorem logsOf_cons_save (f : String) (i : NImage Vol Affine)
    (evs : List (Event Vol Affine GTab)) :
    logsOf (Event.save f i :: evs) = logsOf evs := rfl

@[simp]
theorem logsOf_cons_log (s : String) (evs : List (Event Vol Affine GTab)) :
    logsOf (Event.log s :: evs) = s :: logsOf evs := rfl

@[simp]
theorem logsOf_append (a b : List (Event Vol Affine GTab)) :
    logsOf (a ++ b) = logsOf a ++ logsOf b :=
  List.filterMap_append a b _

@[simp]
theorem fitCallsOf_nil : fitCallsOf ([] : List (Event Vol Affine GTab)) = [] := rfl

@[simp]
theorem fitCallsOf_cons_load (p : String) (evs : List (Event Vol Affine GTab)) :
    fitCallsOf (Event.loadCall p :: evs) = fitCallsOf evs := rfl

@[simp]
theorem fitCallsOf_cons_fit (g : GTab) (d : Vol) (m : Option Vol)
    (evs : List (Event Vol Affine GTab)) :
    fitCallsOf (Event.fitCall g d m :: evs) = (g, d, m) :: fitCallsOf evs := rfl

@[simp]
theorem fitCallsOf_cons_save (f : String) (i : NImage Vol Affine)
    (evs : List (Event Vol Affine GTab)) :
    fitCallsOf (Event.save f i :: evs) = fitCallsOf evs := rfl

@[simp]
theorem fitCallsOf_cons_log (s : String) (evs : List (Event Vol Affine GTab)) :
    fitCallsOf (Event.log s :: evs) = fitCallsOf evs := rfl

@[simp]
theorem fitCallsOf_append (a b : List (Event Vol Affine GTab)) :
    fitCallsOf (a ++ b) = fitCallsOf a ++ fitCallsOf b :=
  List.filterMap_append a b _

/-- The mask block emits no fit/save/log events: only at most one load. -/
theorem loadMask_eq_none (env : Env Vol Affine GTab) (inp : Inputs)
    (h : inp.mask_file = none) : loadMask env inp = ([], none) := by
  unfold loadMask
  rw [h]

theorem loadMask_eq_some (env : Env Vol Affine GTab) (inp : Inputs)
    (mf : String) (h : inp.mask_file = some mf) :
    loadMask env inp = ([Event.loadCall mf], some (env.load mf).data) := by
  unfold loadMask
  rw [h]

@[simp]
theorem savesOf_loadMask (env : Env Vol Affine GTab) (inp : Inputs) :
    savesOf (loadMask env inp).1 = [] := by
  unfold loadMask
  cases inp.mask_file <;> rfl

@[simp]
theorem logsOf_loadMask (env : Env Vol Affine GTab) (inp : Inputs) :
    logsOf (loadMask env inp).1 = [] := by
  unfold loadMask
  cases inp.mask_file <;> rfl

@[simp]
theorem fitCallsOf_loadMask (env : Env Vol Affine GTab) (inp : Inputs) :
    fitCallsOf (loadMask env inp).1 = [] := by
  unfold loadMask
  cases inp.mask_file <;> rfl

/-- The DKI metric loop emits no events at all: it raises (or is empty). -/
theorem dkiMetricLoop_events (fit : PyFit Vol) (ms : List String) :
    (dkiMetricLoop fit ms : RunResult Vol Affine GTab).1 = [] := by
  cases ms with
  | nil => rfl
  | cons m rest =>
    unfold dkiMetricLoop
    cases fit.attrs "metric" <;> rfl

/-- On a nonempty metric list the DKI metric loop raises. -/
theorem dkiMetricLoop_raises (fit : PyFit Vol) (m : String) (ms : List String) :
    ((dkiMetricLoop fit (m :: ms) : RunResult Vol Affine GTab).2).isSome = true := by
  unfold dkiMetricLoop
  cases fit.attrs "metric" <;> rfl

/-- Unfolding equation: a missing metric attribute raises `AttributeError`. -/
theorem dtiMetricLoop_cons_none (env : Env Vol Affine GTab)
    (fit : PyFit Vol) (aff : Affine) (m : String) (rest : List String)
    (hm : fit.attrs m = none) :
    dtiMetricLoop env fit aff (m :: rest) =
      (([], some (PyErr.attributeError m)) : RunResult Vol Affine GTab) := by
  rw [dtiMetricLoop.eq_2, hm]

/-- Unfolding equation: a present metric attribute is cast, saved, logged. -/
theorem dtiMetricLoop_cons_some (env : Env Vol Affine GTab)
    (fit : PyFit Vol) (aff : Affine) (m : String) (rest : List String)
    (v : Vol) (hm : fit.attrs m = some v) :
    dtiMetricLoop env fit aff (m :: rest) =
      ((Event.save (env.genFilename m) ⟨env.astype v "float32", aff⟩ ::
          Event.log ("DTI " ++ m ++ " image saved as " ++ env.genFilename m) ::
            (dtiMetricLoop env fit aff rest).1,
        (dtiMetricLoop env fit aff rest).2) : RunResult Vol Affine GTab) := by
  rw [dtiMetricLoop.eq_2, hm]

/-- Every save the DTI metric loop emits carries the affine it was given and
float32-cast data. -/
theorem dtiMetricLoop_saves_shape (env : Env Vol Affine GTab)
    (fit : PyFit Vol) (aff : Affine) (ms : List String) :
    ∀ p ∈ savesOf (dtiMetricLoop env fit aff ms).1,
      p.2.affine = aff ∧ ∃ v, p.2.data = env.astype v "float32" := by
  induction ms with
  | nil => intro p hp; simp [dtiMetricLoop, savesOf] at hp
  | cons m rest ih =>
    intro p hp
    cases hm : fit.attrs m with
    | none => rw [dtiMetricLoop_cons_none env fit aff m rest hm] at hp; simp [savesOf] at hp
    | some v =>
      rw [dtiMetricLoop_cons_some env fit aff m rest v hm] at hp
      simp only [savesOf_cons_save, savesOf_cons_log, List.mem_cons] at hp
      rcases hp with hp | hp
      · subst hp; exact ⟨rfl, v, rfl⟩
      · exact ih p hp

/-- When the DTI metric loop completes, the filenames it saves are exactly
the generated filenames of its metric list, in order. -/
theorem dtiMetricLoop_saved_names (env : Env Vol Affine GTab)
    (fit : PyFit Vol) (aff : Affine) (ms : List String)
    (h : (dtiMetricLoop env fit aff ms : RunResult Vol Affine GTab).2 = none) :
    (savesOf (dtiMetricLoop env fit aff ms).1).map Prod.fst =
      ms.map env.genFilename := by
  induction ms with
  | nil => rfl
  | cons m rest ih =>
    cases hm : fit.attrs m with
    | none =>
      rw [dtiMetricLoop_cons_none env fit aff m rest hm] at h
      exact absurd h (by simp)
    | some v =>
      rw [dtiMetricLoop_cons_some env fit aff m rest v hm] at h ⊢
      simp only [savesOf_cons_save, savesOf_cons_log, List.map_cons] at h ⊢
      exact congrArg _ (ih h)

/-- The DTI metric loop never invokes a model fit. -/
theorem dtiMetricLoop_no_fitCalls (env : Env Vol Affine GTab)
    (fit : PyFit Vol) (aff : Affine) (ms : List String) :
    fitCallsOf (dtiMetricLoop env fit aff ms : RunResult Vol Affine GTab).1 = [] := by
  induction ms with
  | nil => rfl
  | cons m rest ih =>
    cases hm : fit.attrs m with
    | none =>
      rw [dtiMetricLoop_cons_none env fit aff m rest hm]
      rfl
    | some v =>
      rw [dtiMetricLoop_cons_some env fit aff m rest v hm]
      simpa using ih

end TraceLemmas

/-- C1: the claim says `DKI._run_interface` extracts each of the seven
kurtosis metrics by name and completes without raising when the external
fit succeeds.  The code instead executes
`getattr(kurtosis_fit.metric).astype('float32')` — attribute lookup of
the literal name `"metric"` followed by a one-argument `getattr` call —
so the method raises on the first loop iteration for every environment
and input, even when every metric attribute of the fit is defined. -/
theorem dki_run_interface_always_raises {Vol Affine GTab : Type}
    (env : Env Vol Affine GTab) (inp : Inputs) :
    ((dkiRunInterface env inp).2).isSome = true := by
  unfold dkiRunInterface
  exact dkiMetricLoop_raises _ "fa" _

/-- C3: the claim says each of DKI's declared output slots `fa_file`, …,
`rk_file` receives a filename from `_list_outputs`.  The code assigns the
keys `'{}'.format(metric)` — the bare metric names — so every declared
`*_file` metric slot is absent from the dictionary `_list_outputs`
returns, while undeclared keys `fa`, …, `rk` hold the filenames.  (DTI,
by contrast, assigns its declared `{}_file` keys.) -/
theorem dki_list_outputs_misses_declared_slots :
    DKIOutputSpecFields.filter
        (fun f => ((dkiListOutputs envC).lookup f).isSome) = ["out_file"] ∧
    (dkiListOutputs envC).map Prod.fst = "out_file" :: dkiMetrics ∧
    DTIOutputSpecFields.filter
        (fun f => ((dtiListOutputs envC).lookup f).isSome) =
      DTIOutputSpecFields ∧
    TensorModeOutputSpecFields.filter
        (fun f => ((tensorModeListOutputs envC).lookup f).isSome) =
      TensorModeOutputSpecFields := by decide

/-- C4: the claim says all three adapter classes bind their typed
input/output specifications.  `DTI` and `TensorMode` do, but the `DKI`
class body contains no `input_spec =` or `output_spec =` assignment, so
`DKIInputSpec` (with its `mask_file` field) and `DKIOutputSpec` are never
bound and `DKI` falls back to the inherited base specification. -/
theorem dki_class_lacks_spec_bindings :
    DKIClass.input_spec = none ∧ DKIClass.output_spec = none ∧
    DTIClass.input_spec = some "DTIInputSpec" ∧
    DTIClass.output_spec = some "DTIOutputSpec" ∧
    TensorModeClass.input_spec = some "TensorModeInputSpec" ∧
    TensorModeClass.output_spec = some "TensorModeOutputSpec" := by decide

/-- C8: for every environment and input, `TensorMode._run_interface`
invokes the tensor fit exactly once, with the mask `data[..., 0] > 50`
computed from the loaded diffusion data, and the result of the whole
method is unchanged by any value of the `mask_file` input, which it
never reads. -/
theorem tensorMode_threshold_mask {Vol Affine GTab : Type}
    (env : Env Vol Affine GTab) (inp : Inputs) :
    fitCallsOf (tensorModeRunInterface env inp).1 =
      [(env.gtab, (env.load inp.in_file).data,
        some (env.gtScalar (env.index0Last (env.load inp.in_file).data) 50))] ∧
    ∀ m : Option String,
      tensorModeRunInterface env { inp with mask_file := m } =
        tensorModeRunInterface env inp := by
  constructor
  · cases hattr : (env.dtiFit env.gtab (env.load inp.in_file).data
        (some (env.gtScalar (env.index0Last (env.load inp.in_file).data) 50))).attrs
        "mode" <;>
      simp [tensorModeRunInterface, hattr]
  · intro m
    rfl

/-- C9: for DTI and DKI, when the optional `mask_file` input is not set,
the external model fit is invoked with mask `None`: each run's single
fit call carries `none` as its mask argument. -/
theorem unset_mask_file_gives_none_mask {Vol Affine GTab : Type}
    (env : Env Vol Affine GTab) (inp : Inputs) (h : inp.mask_file = none) :
    fitCallsOf (dtiRunInterface env inp).1 =
      [(env.gtab, (env.load inp.in_file).data, none)] ∧
    fitCallsOf (dkiRunInterface env inp).1 =
      [(env.gtab, (env.load inp.in_file).data, none)] := by
  have hm := loadMask_eq_none env inp h
  constructor
  · unfold dtiRunInterface
    rw [hm]
    simp [dtiMetricLoop_no_fitCalls]
  · unfold dkiRunInterface
    rw [hm]
    simp [dkiMetricLoop_events]

/-- C2 counterexample: at the concrete environment with
`mask_file = 'mask.nii'` set, the mask `TensorMode._run_interface` passes
to the tensor fit is not the volume loaded from `mask_file` (the loaded
mask volume is `100`; the mask passed is the thresholded `0`), refuting
the claim for the TensorMode adapter. -/
theorem tensorMode_mask_file_cex :
    inpM.mask_file = some "mask.nii" ∧
    (envC.load "mask.nii").data = 100 ∧
    fitCallsOf (tensorModeRunInterface envC inpM).1 =
      [(17, 3, some 0)] ∧
    ¬ fitCallsOf (tensorModeRunInterface envC inpM).1 =
        [(envC.gtab, (envC.load inpM.in_file).data,
          some ((envC.load "mask.nii").data))] := by decide

/-- C2 (amended): for the DTI and DKI adapters, whenever `mask_file` is
set, the mask passed to the external model fit is exactly the volume
loaded from `mask_file`; the TensorMode adapter, however, never reads
`mask_file` and fits with its own thresholded mask instead. -/
theorem mask_file_restricts_fit {Vol Affine GTab : Type}
    (env : Env Vol Affine GTab) (inp : Inputs) (mf : String)
    (h : inp.mask_file = some mf) :
    fitCallsOf (dtiRunInterface env inp).1 =
      [(env.gtab, (env.load inp.in_file).data, some ((env.load mf).data))] ∧
    fitCallsOf (dkiRunInterface env inp).1 =
      [(env.gtab, (env.load inp.in_file).data, some ((env.load mf).data))] ∧
    ∀ m : Option String,
      tensorModeRunInterface env { inp with mask_file := m } =
        tensorModeRunInterface env inp := by
  have hm := loadMask_eq_some env inp mf h
  refine ⟨?_, ?_, fun m => rfl⟩
  · unfold dtiRunInterface
    rw [hm]
    simp [dtiMetricLoop_no_fitCalls]
  · unfold dkiRunInterface
    rw [hm]
    simp [dkiMetricLoop_events]

/-- C2 (amended) witness: at the concrete environment with the mask file
set, DTI and DKI pass the loaded mask volume to their fits. -/
theorem mask_file_restricts_fit_witness :
    inpM.mask_file = some "mask.nii" ∧
    (fitCallsOf (dtiRunInterface envC inpM).1 =
      [(envC.gtab, (envC.load inpM.in_file).data,
        some ((envC.load "mask.nii").data))] ∧
     fitCallsOf (dkiRunInterface envC inpM).1 =
      [(envC.gtab, (envC.load inpM.in_file).data,
        some ((envC.load "mask.nii").data))] ∧
     ∀ m : Option String,
       tensorModeRunInterface envC { inpM with mask_file := m } =
         tensorModeRunInterface envC inpM) :=
  ⟨rfl, mask_file_restricts_fit envC inpM "mask.nii" rfl⟩

/-- C6: every volume any of the three `_run_interface` bodies saves — the
DKI and DTI lower-triangular parameter images, the DTI metric volumes and
the TensorMode mode volume — is constructed with the affine of the image
loaded from `in_file`, so outputs inherit the input's spatial alignment. -/
theorem outputs_inherit_input_affine {Vol Affine GTab : Type}
    (env : Env Vol Affine GTab) (inp : Inputs) (p : String × NImage Vol Affine)
    (hp : p ∈ savesOf (dkiRunInterface env inp).1 ∨
          p ∈ savesOf (dtiRunInterface env inp).1 ∨
          p ∈ savesOf (tensorModeRunInterface env inp).1) :
    p.2.affine = (env.load inp.in_file).affine := by
  rcases hp with hp | hp | hp
  · simp [dkiRunInterface, dkiMetricLoop_events] at hp
    rw [hp]
  · simp [dtiRunInterface] at hp
    rcases hp with hp | hp
    · rw [hp]
    · exact (dtiMetricLoop_saves_shape env _ _ dtiMetrics p hp).1
  · cases hattr : (env.dtiFit env.gtab (env.load inp.in_file).data
        (some (env.gtScalar (env.index0Last (env.load inp.in_file).data) 50))).attrs
        "mode" with
    | none => simp [tensorModeRunInterface, hattr] at hp
    | some v =>
      simp [tensorModeRunInterface, hattr] at hp
      rw [hp]

/-- C6 witness: a concrete DTI metric save carries the input affine. -/
theorem outputs_inherit_input_affine_witness :
    (("f_fa.nii.gz", ({ data := 1005, affine := 42 } : NImage Int Int)) ∈
        savesOf (dkiRunInterface envC inpC).1 ∨
      ("f_fa.nii.gz", ({ data := 1005, affine := 42 } : NImage Int Int)) ∈
        savesOf (dtiRunInterface envC inpC).1 ∨
      ("f_fa.nii.gz", ({ data := 1005, affine := 42 } : NImage Int Int)) ∈
        savesOf (tensorModeRunInterface envC inpC).1) ∧
    ({ data := 1005, affine := 42 } : NImage Int Int).affine =
      (envC.load inpC.in_file).affine :=
  ⟨Or.inr (Or.inl (by decide)),
   outputs_inherit_input_affine envC inpC
     ("f_fa.nii.gz", { data := 1005, affine := 42 })
     (Or.inr (Or.inl (by decide)))⟩

/-- C9 witness: at the concrete environment and mask-free inputs, both
fit calls carry mask `none`. -/
theorem unset_mask_file_gives_none_mask_witness :
    inpC.mask_file = none ∧
    (fitCallsOf (dtiRunInterface envC inpC).1 =
      [(envC.gtab, (envC.load inpC.in_file).data, none)] ∧
     fitCallsOf (dkiRunInterface envC inpC).1 =
      [(envC.gtab, (envC.load inpC.in_file).data, none)]) :=
  ⟨rfl, unset_mask_file_gives_none_mask envC inpC rfl⟩

/-- C5: the claim says every output volume's generated filename appears in
a log message; the DKI tensor parameters file refutes it.  The logging
statement for that file is
`IFLOGGER.info('DKI parameters image saved as {i}.format(i=out_file)')`:
the `.format` call sits inside the string literal, so the literal itself
is logged and no log message of the DKI run contains the generated
filename of the saved parameters image.  (The DTI run, by contrast, logs
every filename it saves.) -/
theorem dki_param_log_lacks_filename :
    (savesOf (dkiRunInterface envC inpC).1).map Prod.fst = ["f_dki.nii.gz"] ∧
    logsOf (dkiRunInterface envC inpC).1 =
      ["DKI parameters image saved as {i}.format(i=out_file)"] ∧
    (logsOf (dkiRunInterface envC inpC).1).filter
        (fun l => strContains l "f_dki.nii.gz") = [] ∧
    (savesOf (dtiRunInterface envC inpC).1).all
        (fun p => (logsOf (dtiRunInterface envC inpC).1).any
          (fun l => strContains l p.1)) = true ∧
    (savesOf (tensorModeRunInterface envC inpC).1).all
        (fun p => (logsOf (tensorModeRunInterface envC inpC).1).any
          (fun l => strContains l p.1)) = true := by decide

/-- C7 counterexample: at the concrete environment, the filenames the DKI
run actually writes (only the `'dki'` parameters file — the metric loop
raises first) differ from the filenames `DKI._list_outputs` returns. -/
theorem dki_written_vs_listed_names_cex :
    (savesOf (dkiRunInterface envC inpC).1).map Prod.fst = ["f_dki.nii.gz"] ∧
    (dkiListOutputs envC).map Prod.snd =
      ["f_dki.nii.gz", "f_fa.nii.gz", "f_md.nii.gz", "f_rd.nii.gz",
       "f_ad.nii.gz", "f_mk.nii.gz", "f_ak.nii.gz", "f_rk.nii.gz"] ∧
    ¬ (savesOf (dkiRunInterface envC inpC).1).map Prod.fst =
        (dkiListOutputs envC).map Prod.snd := by decide

/-- C7 (amended): filename generation is deterministic — both methods of
each adapter call the same generator with the same base template and
metric-name arguments.  For DTI and TensorMode, whenever
`_run_interface` completes, the filenames it wrote are exactly the
filenames `_list_outputs` returns, in order.  For DKI, `_list_outputs`
likewise derives `'dki'` plus the seven metric names through the same
generator, but `_run_interface` aborts in its metric loop, so the only
filename it writes is the generated `'dki'` name. -/
theorem filename_generation_agrees {Vol Affine GTab : Type}
    (env : Env Vol Affine GTab) (inp : Inputs) :
    ((dtiRunInterface env inp).2 = none →
      (savesOf (dtiRunInterface env inp).1).map Prod.fst =
        (dtiListOutputs env).map Prod.snd) ∧
    ((tensorModeRunInterface env inp).2 = none →
      (savesOf (tensorModeRunInterface env inp).1).map Prod.fst =
        (tensorModeListOutputs env).map Prod.snd) ∧
    ((savesOf (dkiRunInterface env inp).1).map Prod.fst =
        [env.genFilename "dki"] ∧
      (dkiListOutputs env).map Prod.snd =
        env.genFilename "dki" :: dkiMetrics.map env.genFilename) := by
  refine ⟨?_, ?_, ?_, ?_⟩
  · intro h
    have h2 : (dtiMetricLoop env
        (env.dtiFit env.gtab (env.load inp.in_file).data (loadMask env inp).2)
        (env.load inp.in_file).affine dtiMetrics).2 = none := h
    simp [dtiRunInterface, dtiListOutputs, List.map_map,
      dtiMetricLoop_saved_names _ _ _ _ h2]
  · intro h
    cases hattr : (env.dtiFit env.gtab (env.load inp.in_file).data
        (some (env.gtScalar (env.index0Last (env.load inp.in_file).data) 50))).attrs
        "mode" with
    | none => simp [tensorModeRunInterface, hattr] at h
    | some v => simp [tensorModeRunInterface, tensorModeListOutputs, hattr]
  · simp [dkiRunInterface, dkiMetricLoop_events]
  · simp [dkiListOutputs, List.map_map]

/-- C7 (amended) witness: at the concrete environment, the completed DTI
and TensorMode runs write exactly the filenames their `_list_outputs`
return. -/
theorem filename_generation_agrees_witness :
    (savesOf (dtiRunInterface envC inpC).1).map Prod.fst =
      (dtiListOutputs envC).map Prod.snd ∧
    (savesOf (tensorModeRunInterface envC inpC).1).map Prod.fst =
      (tensorModeListOutputs envC).map Prod.snd :=
  ⟨(filename_generation_agrees envC inpC).1 (by decide),
   (filename_generation_agrees envC inpC).2.1 (by decide)⟩

/-- C10: every per-metric scalar volume written by the DTI and DKI
adapters — every save after the first (the first is the lower-triangular
parameters image) — holds data cast with `astype('float32')`.  The DKI
run writes no per-metric volume at all (its metric loop raises before
any write), so its part holds with an empty list of metric saves. -/
theorem metric_volumes_cast_float32 {Vol Affine GTab : Type}
    (env : Env Vol Affine GTab) (inp : Inputs) :
    (∀ p ∈ (savesOf (dtiRunInterface env inp).1).drop 1,
      ∃ v, p.2.data = env.astype v "float32") ∧
    (savesOf (dkiRunInterface env inp).1).drop 1 = [] := by
  constructor
  · intro p hp
    have hd : (savesOf (dtiRunInterface env inp).1).drop 1 =
        savesOf (dtiMetricLoop env
          (env.dtiFit env.gtab (env.load inp.in_file).data (loadMask env inp).2)
          (env.load inp.in_file).affine dtiMetrics).1 := by
      simp [dtiRunInterface]
    rw [hd] at hp
    exact (dtiMetricLoop_saves_shape env _ _ dtiMetrics p hp).2
  · simp [dkiRunInterface, dkiMetricLoop_events]

/-- C10 witness: the concrete DTI `fa` save holds float32-cast data. -/
theorem metric_volumes_cast_float32_witness :
    (("f_fa.nii.gz", ({ data := 1005, affine := 42 } : NImage Int Int)) ∈
      (savesOf (dtiRunInterface envC inpC).1).drop 1) ∧
    ∃ v, ({ data := 1005, affine := 42 } : NImage Int Int).data =
      envC.astype v "float32" :=
  ⟨by decide,
   (metric_volumes_cast_float32 envC inpC).1
     ("f_fa.nii.gz", { data := 1005, affine := 42 }) (by decide)⟩

end DipyTensors
